import Mathlib

/-!
Verification of the round-outcome resolver (`activateAction`) and the turn
confirmation barrier (`changeTurnAction`) of the e-chair game server actions
(`src/web/features/room/action.ts`), over a shallow embedding of the room data
model. JavaScript numbers used as integers are modelled by `Int`; nullable
fields by `Option`; the document-store calls are dropped and the state
transformation applied between a successful read and the write is embedded as
a pure function on `GameRoom`.
-/

namespace EChair

/-- Player record: `id`, `name`, `ready`, `point`, `shockedCount`. -/
structure Player where
  id : String
  name : String
  ready : Bool
  point : Int
  shockedCount : Int
deriving Repr, DecidableEq

/-- Round phase enum: `select`, `activate`, `result`. -/
inductive Phase where
  | select
  | activate
  | result
deriving Repr, DecidableEq

/-- Turn enum: `top`, `bottom`. -/
inductive Turn where
  | top
  | bottom
deriving Repr, DecidableEq

/-- Result status: `shocked` or `safe`; `Option` models absence. -/
inductive ResultStatus where
  | shocked
  | safe
deriving Repr, DecidableEq

/-- The per-round `result` record: status, confirmed ids, shownResult flag. -/
structure RoundResult where
  status : Option ResultStatus
  confirmedIds : List String
  shownResult : Bool
deriving Repr, DecidableEq

/-- The `Round` record of the room document. -/
structure Round where
  attackerId : String
  turn : Turn
  count : Int
  phase : Phase
  electricChair : Option Int
  seatedChair : Option Int
  result : RoundResult
deriving Repr, DecidableEq

/-- The `GameRoom` document. `winnerId` is `none` while the game is ongoing;
a set value is a player id or the literal `"draw"` sentinel, exactly as in the
source. -/
structure GameRoom where
  id : String
  players : List Player
  round : Round
  remainingChairs : List Int
  winnerId : Option String
deriving Repr, DecidableEq

/-- The value of `round.seatedChair || 0` in the source: `null` reads as `0`
(`0 || 0` is also `0`, so `Option.getD`-style defaulting is exact). -/
def seatValue : Option Int → Int
  | none => 0
  | some s => s

/-- The per-player update of `activateAction` (the `players.map` callback,
lines 132-141): the attacker's `point` becomes `0` when shocked, otherwise
grows by `seatedChair || 0`; the attacker's `shockedCount` grows by one when
shocked; every other player is returned unchanged. -/
def updatePlayer (round : Round) (player : Player) : Player :=
  if player.id = round.attackerId then
    { player with
      point := if round.electricChair = round.seatedChair then 0
               else player.point + seatValue round.seatedChair,
      shockedCount := if round.electricChair = round.seatedChair
                      then player.shockedCount + 1
                      else player.shockedCount }
  else player

/-- The `remainingChairs` update (lines 144-146): unchanged when shocked,
otherwise `filter (chair !== seatedChair)`; the strict `!==` of a number
against a possibly-null `seatedChair` is `some chair ≠ seatedChair`. -/
def nextRemainingChairs (room : GameRoom) : List Int :=
  if room.round.electricChair = room.round.seatedChair then room.remainingChairs
  else room.remainingChairs.filter (fun chair => decide (some chair ≠ room.round.seatedChair))

/-- One step of the `updatedPlayers.reduce` of the chair-exhaustion branch
(lines 159-166). The source builds `{ id: "draw" } as Player`, leaving the
remaining fields undefined; since only `id` is ever read from the reduce
result in a two-player room, the other fields here are arbitrary defaults. -/
def reduceStep (prev current : Player) : Player :=
  if current.point > prev.point then current
  else if current.point = prev.point then
    { id := "draw", name := "", ready := false, point := 0, shockedCount := 0 }
  else prev

/-- The `.id` of the reduce over the updated players; `none` for the empty
list (where the JavaScript `reduce` would throw, a case never reached since a
room holds its two players). -/
def winnerOfReduce : List Player → Option String
  | [] => none
  | p :: ps => some (ps.foldl reduceStep p).id

/-- The winner determination of `activateAction` (lines 148-168), evaluated
on the updated players and updated chairs: `point >= 40` sets the attacker,
else `shockedCount === 3` sets the first player whose id differs from the
attacker's, else a one-element chair pool triggers the reduce comparison,
else the winner stays null. -/
def nextWinnerId (room : GameRoom) : Option String :=
  let updated := room.players.map (updatePlayer room.round)
  if ∃ p ∈ updated, 40 ≤ p.point then some room.round.attackerId
  else if ∃ p ∈ updated, p.shockedCount = 3 then
    (room.players.find? (fun p => decide (p.id ≠ room.round.attackerId))).map Player.id
  else if (nextRemainingChairs room).length = 1 then winnerOfReduce updated
  else none

/-- The full state transformation of `activateAction` (lines 120-190) between
the successful room read and the write: the merged document keeps `id` and
replaces `players`, `remainingChairs`, `winnerId` and `round`; the new round
carries every field over except `phase` (set to `result`) and
`result.status` (set to `shocked` or `safe`). The source contains no phase or
seated-chair validation and no error path besides the read/write status
checks. -/
def activate (room : GameRoom) : GameRoom :=
  { room with
    players := room.players.map (updatePlayer room.round),
    remainingChairs := nextRemainingChairs room,
    winnerId := nextWinnerId room,
    round := { room.round with
      phase := Phase.result,
      result := { room.round.result with
        status := some (if room.round.electricChair = room.round.seatedChair
                        then ResultStatus.shocked else ResultStatus.safe) } } }

/-- Modelled from the spec: `plainRoundData.round` (imported from
`src/web/utils/room`, a file not present under `src/`): the initial round
template whose per-round transient fields are the "select" values — phase
`select`, no electric or seated chair, and an empty result record (spec
§4.2: "all per-round transient fields (`phase`, `electricChair`,
`seatedChair`, `result`) reset to their initial 'select' values",
Scenario D: "phase reset to initial 'select' state, confirmedIds empty").
`attackerId`, `turn` and `count` are always overridden by the barrier, so
their template values are irrelevant. -/
def plainRound : Round :=
  { attackerId := "",
    turn := Turn.top,
    count := 1,
    phase := Phase.select,
    electricChair := none,
    seatedChair := none,
    result := { status := none, confirmedIds := [], shownResult := false } }

/-- The resolver closure passed to `confirmTurnResult` by `changeTurnAction`
(lines 199-241): one confirmation records the ids and raises `shownResult`;
two confirmations build the next round from the template, with the next
attacker the first confirmed id differing from the current attacker
(falling back to the first confirmed id), alternating the turn and bumping
`count` after a `bottom` half; any other shape returns `none` (no write). -/
def changeTurnResolver (round : Round) (confirmedIds : List String) : Option Round :=
  if confirmedIds.length = 1 then
    some { round with
      result := { round.result with confirmedIds := confirmedIds, shownResult := true } }
  else if confirmedIds.length = 2 then
    let nextAttackerId :=
      match confirmedIds.find? (fun id => decide (id ≠ round.attackerId)) with
      | some id => id
      | none => confirmedIds.headD ("")
    match round.turn with
    | Turn.top =>
      some { plainRound with
        attackerId := nextAttackerId, turn := Turn.bottom, count := round.count }
    | Turn.bottom =>
      some { plainRound with
        attackerId := nextAttackerId, turn := Turn.top, count := round.count + 1 }
  else none

/-- Modelled from the spec: `confirmTurnResult` (from `src/libs/firestore`, a
file not present under `src/`) runs the resolver inside a transaction against
the latest snapshot, handing it the round and the confirmed-id list extended
with the confirming user (the source comments read a one-entry list as the
first confirmation, so the list includes the new confirmer; spec §9 notes the
source does not deduplicate); a `none` resolver result means no write occurs
(spec §6), so the room is returned unchanged. -/
def confirmTurn (room : GameRoom) (userId : String) : GameRoom :=
  match changeTurnResolver room.round (room.round.result.confirmedIds ++ [userId]) with
  | some r => { room with round := r }
  | none => room

/-! Helper lemmas shared by the claim theorems. -/

/-- The player update never changes a player's id. -/
lemma updatePlayer_id (round : Round) (p : Player) : (updatePlayer round p).id = p.id := by
  unfold updatePlayer
  split <;> rfl

/-- A player whose id differs from the attacker's is returned unchanged. -/
lemma updatePlayer_not_attacker (round : Round) (p : Player)
    (h : p.id ≠ round.attackerId) : updatePlayer round p = p := by
  simp [updatePlayer, h]

/-- The players written by the resolver are the mapped players. -/
lemma activate_players (room : GameRoom) :
    (activate room).players = room.players.map (updatePlayer room.round) := rfl

/-- The chairs written by the resolver. -/
lemma activate_remainingChairs (room : GameRoom) :
    (activate room).remainingChairs = nextRemainingChairs room := rfl

/-- The winner written by the resolver. -/
lemma activate_winnerId (room : GameRoom) :
    (activate room).winnerId = nextWinnerId room := rfl

/-- Sample player builder for the concrete rooms below. -/
def mkP (id : String) (pt sc : Int) : Player :=
  { id := id, name := "", ready := false, point := pt, shockedCount := sc }

/-- Sample room builder for the concrete rooms below. -/
def mkRoom (ps : List Player) (atk : String) (ph : Phase) (elec seat : Option Int)
    (rc : List Int) (w : Option String) : GameRoom :=
  { id := "r", players := ps,
    round := { attackerId := atk, turn := Turn.top, count := 1,
               phase := ph, electricChair := elec, seatedChair := seat,
               result := { status := none, confirmedIds := [], shownResult := false } },
    remainingChairs := rc, winnerId := w }

/-- Concrete saturated room for the C6 witness: both confirmations already
recorded. -/
def c6room : GameRoom :=
  { mkRoom [mkP ("P1") 12 0, mkP ("P2") 7 1] ("P1") Phase.result (some 2) (some 4) [1, 3, 5] none with
    round := { (mkRoom [] ("P1") Phase.result (some 2) (some 4) [] none).round with
      result := { status := some ResultStatus.safe,
                  confirmedIds := ["P1", "P2"], shownResult := true } } }

/-- C5: for every second confirmation (a two-entry confirmed list), the
barrier resolver produces the next round: the new attacker is the confirmed
id differing from the current attacker, falling back to the first confirmed
id when both match the attacker; a `top` round becomes `bottom` with the
count kept, a `bottom` round becomes `top` with the count incremented; and
phase, chairs and result are reset to the initial select values. -/
theorem c5_second_confirmation (round : Round) (a b : String) :
    ∃ r, changeTurnResolver round [a, b] = some r
      ∧ r.attackerId = (if a ≠ round.attackerId then a
                        else if b ≠ round.attackerId then b else a)
      ∧ (round.turn = Turn.top → r.turn = Turn.bottom ∧ r.count = round.count)
      ∧ (round.turn = Turn.bottom → r.turn = Turn.top ∧ r.count = round.count + 1)
      ∧ r.phase = Phase.select
      ∧ r.electricChair = none
      ∧ r.seatedChair = none
      ∧ r.result.status = none
      ∧ r.result.confirmedIds = []
      ∧ r.result.shownResult = false := by
  unfold changeTurnResolver
  by_cases ha : a = round.attackerId <;> by_cases hb : b = round.attackerId <;>
    cases htr : round.turn <;>
    simp [List.find?, ha, hb, htr, plainRound]

/-- C6: once two confirmations are recorded for the round, a further
confirmation is a no-op — the barrier resolver returns `none`, so no write
occurs and the room is unchanged. -/
theorem c6_saturation_noop (room : GameRoom) (userId : String)
    (h : room.round.result.confirmedIds.length = 2) :
    changeTurnResolver room.round (room.round.result.confirmedIds ++ [userId]) = none
    ∧ confirmTurn room userId = room := by
  have hlen : (room.round.result.confirmedIds ++ [userId]).length = 3 := by
    simp [h]
  have hres : changeTurnResolver room.round (room.round.result.confirmedIds ++ [userId]) = none := by
    unfold changeTurnResolver
    rw [hlen]
    simp
  refine ⟨hres, ?_⟩
  unfold confirmTurn
  rw [hres]

/-- Witness for C6 at a concrete saturated room. -/
theorem c6_saturation_noop_witness :
    c6room.round.result.confirmedIds.length = 2
    ∧ confirmTurn c6room ("P2") = c6room :=
  ⟨by decide, (c6_saturation_noop c6room ("P2") (by decide)).2⟩

/-- Concrete room for the C7 counterexample: the winner is already recorded
as "P1" yet one further resolver application clears it. -/
def c7room : GameRoom :=
  mkRoom [mkP ("P1") 40 0, mkP ("P2") 0 0] ("P1") Phase.result
    (some 3) (some 3) [1, 2, 3, 4, 5] (some ("P1"))

/-- Counterexample to C7: `activateAction` recomputes `winnerId` from `null`
on every application, so a shocked application to a finished room reverts a
set `winnerId` back to null. -/
theorem c7_counterexample :
    c7room.winnerId = some ("P1") ∧ (activate c7room).winnerId = none := by
  decide

/-- C7 amended: the barrier never changes `winnerId`: its resolver only ever
writes the `round` field, so a confirmation leaves `winnerId` exactly as it
was; only the resolver (`activateAction`) rewrites `winnerId`, and it does so
from scratch on every application (see the counterexample). -/
theorem c7_barrier_preserves_winner (room : GameRoom) (userId : String) :
    (confirmTurn room userId).winnerId = room.winnerId := by
  unfold confirmTurn
  cases changeTurnResolver room.round (room.round.result.confirmedIds ++ [userId]) <;> rfl

/-- Concrete room for the C10 witness. -/
def c10room : GameRoom :=
  mkRoom [mkP ("P1") 3 1, mkP ("P2") 9 2] ("P1") Phase.activate
    (some 6) (some 2) [1, 2, 5, 6] none

/-- C10: one resolver application only touches the attacker's player record,
the chairs, the winner, the round phase and the result status: every other
player record is carried over unchanged (same list position), and of the
round's fields `attackerId`, `turn`, `count`, `electricChair`, `seatedChair`,
`result.confirmedIds` and `result.shownResult` are carried over, while
`phase` becomes `result` and `result.status` becomes shocked or safe. -/
theorem c10_frame (room : GameRoom) :
    (activate room).round.attackerId = room.round.attackerId
    ∧ (activate room).round.turn = room.round.turn
    ∧ (activate room).round.count = room.round.count
    ∧ (activate room).round.electricChair = room.round.electricChair
    ∧ (activate room).round.seatedChair = room.round.seatedChair
    ∧ (activate room).round.result.confirmedIds = room.round.result.confirmedIds
    ∧ (activate room).round.result.shownResult = room.round.result.shownResult
    ∧ (activate room).round.phase = Phase.result
    ∧ ((activate room).round.result.status = some ResultStatus.shocked
       ∨ (activate room).round.result.status = some ResultStatus.safe)
    ∧ List.Forall₂ (fun p q => p.id ≠ room.round.attackerId → q = p)
        room.players (activate room).players := by
  refine ⟨rfl, rfl, rfl, rfl, rfl, rfl, rfl, rfl, ?_, ?_⟩
  · by_cases h : room.round.electricChair = room.round.seatedChair <;>
      simp [activate, h]
  · rw [activate_players, List.forall₂_map_right_iff]
    refine List.forall₂_same.2 (fun p _ hne => ?_)
    exact updatePlayer_not_attacker room.round p hne

/-- Witness for C10 at a concrete room (extracting the non-attacker frame
part, whose relation carries the id hypothesis). -/
theorem c10_frame_witness :
    List.Forall₂ (fun p q => p.id ≠ c10room.round.attackerId → q = p)
      c10room.players (activate c10room).players :=
  (c10_frame c10room).2.2.2.2.2.2.2.2.2

/-- Concrete room for the C8 counterexample: the attacker holds 10 points
and sits on the electric chair. -/
def c8room : GameRoom :=
  mkRoom [mkP ("P1") 10 0, mkP ("P2") 0 0] ("P1") Phase.activate
    (some 3) (some 3) [1, 2, 3, 4, 5] none

/-- Counterexample to C8: a shocked application resets the attacker's point
from 10 to 0, so `point` is not monotone non-decreasing. -/
theorem c8_counterexample :
    c8room.players.map Player.point = [10, 0]
    ∧ (activate c8room).players.map Player.point = [0, 0]
    ∧ c8room.round.electricChair = c8room.round.seatedChair := by
  decide

/-- C8 amended: `shockedCount` is monotone non-decreasing across every
resolver application; `point` is monotone non-decreasing only on safe
applications with a non-negative seat value — a shock resets the attacker's
point to 0 (see the counterexample). -/
theorem c8_monotone (room : GameRoom) :
    List.Forall₂ (fun p q => p.shockedCount ≤ q.shockedCount)
      room.players (activate room).players
    ∧ (room.round.electricChair ≠ room.round.seatedChair →
        0 ≤ seatValue room.round.seatedChair →
        List.Forall₂ (fun p q => p.point ≤ q.point)
          room.players (activate room).players) := by
  constructor
  · rw [activate_players, List.forall₂_map_right_iff]
    refine List.forall₂_same.2 (fun p _ => ?_)
    by_cases hid : p.id = room.round.attackerId <;>
      by_cases hsh : room.round.electricChair = room.round.seatedChair <;>
      simp [updatePlayer, hid, hsh]
  · intro hsh hs
    rw [activate_players, List.forall₂_map_right_iff]
    refine List.forall₂_same.2 (fun p _ => ?_)
    by_cases hid : p.id = room.round.attackerId <;>
      simp [updatePlayer, hid, hsh]
    omega

/-- Concrete safe room for the C8 witness. -/
def c8wroom : GameRoom :=
  mkRoom [mkP ("P1") 10 1, mkP ("P2") 4 0] ("P1") Phase.activate
    (some 3) (some 5) [1, 2, 3, 4, 5] none

/-- Witness for C8 at a concrete safe room. -/
theorem c8_monotone_witness :
    c8wroom.round.electricChair ≠ c8wroom.round.seatedChair
    ∧ 0 ≤ seatValue c8wroom.round.seatedChair
    ∧ List.Forall₂ (fun p q => p.shockedCount ≤ q.shockedCount)
        c8wroom.players (activate c8wroom).players
    ∧ List.Forall₂ (fun p q => p.point ≤ q.point)
        c8wroom.players (activate c8wroom).players :=
  ⟨by decide, by decide, (c8_monotone c8wroom).1,
   (c8_monotone c8wroom).2 (by decide) (by decide)⟩

/-- Concrete room for the C9 counterexample: a single chair survives, the
defender sits on it safely. -/
def c9room : GameRoom :=
  mkRoom [mkP ("P1") 16 0, mkP ("P2") 20 0] ("P1") Phase.activate
    (some 9) (some 4) [4] none

/-- Counterexample to C9: a safe application to a one-chair room empties the
chair pool while `winnerId` stays null, so the pool does shrink below one
element during an ongoing game. -/
theorem c9_counterexample :
    c9room.remainingChairs = [4]
    ∧ (activate c9room).remainingChairs = []
    ∧ (activate c9room).winnerId = none := by
  decide

/-- C9 amended: the chair pool never grows: its length is non-increasing
across every resolver application; a shocked application leaves it
untouched, a safe application removes every occurrence of the seated chair
(exactly one element in a duplicate-free pool that contains it), and from a
duplicate-free pool of at least two chairs at least one chair survives. The
pool can still reach zero while `winnerId` is null — from a one-chair pool
(see the counterexample). -/
theorem c9_chairs_shrink (room : GameRoom) :
    (activate room).remainingChairs.length ≤ room.remainingChairs.length
    ∧ (room.round.electricChair = room.round.seatedChair →
        (activate room).remainingChairs = room.remainingChairs)
    ∧ (∀ s : Int, room.round.electricChair ≠ room.round.seatedChair →
        room.round.seatedChair = some s → s ∈ room.remainingChairs →
        room.remainingChairs.Nodup →
        (activate room).remainingChairs.length = room.remainingChairs.length - 1)
    ∧ (room.remainingChairs.Nodup → 2 ≤ room.remainingChairs.length →
        1 ≤ (activate room).remainingChairs.length) := by
  have hfilter : ∀ s : Int, room.round.seatedChair = some s →
      room.remainingChairs.filter (fun chair => decide (some chair ≠ room.round.seatedChair))
        = room.remainingChairs.filter (fun chair => decide (chair ≠ s)) := by
    intro s hs
    simp [hs]
  have hlen : (activate room).remainingChairs.length ≤ room.remainingChairs.length := by
    rw [activate_remainingChairs]
    unfold nextRemainingChairs
    split
    · exact le_rfl
    · exact List.length_filter_le _ _
  have herase : ∀ s : Int, room.round.electricChair ≠ room.round.seatedChair →
      room.round.seatedChair = some s → s ∈ room.remainingChairs →
      room.remainingChairs.Nodup →
      (activate room).remainingChairs.length = room.remainingChairs.length - 1 := by
    intro s hne hs hmem hnd
    rw [activate_remainingChairs]
    unfold nextRemainingChairs
    rw [if_neg hne, hfilter s hs]
    have : room.remainingChairs.filter (fun chair => decide (chair ≠ s))
        = room.remainingChairs.erase s := by
      rw [hnd.erase_eq_filter]
      refine List.filter_congr (fun a _ => ?_)
      by_cases h : a = s <;> simp [h]
    rw [this, List.length_erase_of_mem hmem]
  refine ⟨hlen, ?_, herase, ?_⟩
  · intro h
    rw [activate_remainingChairs]
    unfold nextRemainingChairs
    rw [if_pos h]
  · intro hnd h2
    by_cases hne : room.round.electricChair = room.round.seatedChair
    · rw [activate_remainingChairs]
      unfold nextRemainingChairs
      rw [if_pos hne]
      omega
    · cases hsc : room.round.seatedChair with
      | none =>
        rw [activate_remainingChairs]
        unfold nextRemainingChairs
        rw [if_neg hne]
        simp [hsc]
        omega
      | some s =>
        by_cases hmem : s ∈ room.remainingChairs
        · have := herase s hne hsc hmem hnd
          omega
        · rw [activate_remainingChairs]
          unfold nextRemainingChairs
          rw [if_neg hne, hfilter s hsc]
          have : room.remainingChairs.filter (fun chair => decide (chair ≠ s))
              = room.remainingChairs := by
            apply List.filter_eq_self.2
            intro a ha
            simp
            intro has
            exact hmem (has ▸ ha)
          rw [this]
          omega

/-- Concrete safe room for the C9 witness. -/
def c9wroom : GameRoom :=
  mkRoom [mkP ("P1") 6 0, mkP ("P2") 4 0] ("P1") Phase.activate
    (some 9) (some 4) [2, 4, 7] none

/-- Witness for C9 at a concrete safe room with three distinct chairs. -/
theorem c9_chairs_shrink_witness :
    c9wroom.round.electricChair ≠ c9wroom.round.seatedChair
    ∧ c9wroom.round.seatedChair = some 4
    ∧ (4 : Int) ∈ c9wroom.remainingChairs
    ∧ c9wroom.remainingChairs.Nodup
    ∧ 2 ≤ c9wroom.remainingChairs.length
    ∧ (activate c9wroom).remainingChairs.length ≤ c9wroom.remainingChairs.length
    ∧ (activate c9wroom).remainingChairs.length = c9wroom.remainingChairs.length - 1
    ∧ 1 ≤ (activate c9wroom).remainingChairs.length :=
  ⟨by decide, by decide, by decide, by decide, by decide,
   (c9_chairs_shrink c9wroom).1,
   (c9_chairs_shrink c9wroom).2.2.1 4 (by decide) (by decide) (by decide) (by decide),
   (c9_chairs_shrink c9wroom).2.2.2 (by decide) (by decide)⟩

/-- Concrete room for the C1 counterexample: seat value 0, attacker point 0,
shocked. -/
def c1room : GameRoom :=
  mkRoom [mkP ("P1") 0 0, mkP ("P2") 0 0] ("P1") Phase.activate
    (some 0) (some 0) [1, 2, 3] none

/-- Counterexample to C1: on a shocked application with seat value 0 and
attacker point 0 the attacker's point goes from 0 to 0, so it "increases by
`seatedChair`" (0 = 0 + 0) at the same time as `shockedCount` increases by
one — both branches of the claimed exclusive-or hold at once. -/
theorem c1_counterexample :
    c1room.round.seatedChair = some 0
    ∧ c1room.round.electricChair = c1room.round.seatedChair
    ∧ c1room.players.map Player.point = [0, 0]
    ∧ c1room.players.map Player.shockedCount = [0, 0]
    ∧ (activate c1room).players.map Player.point = [0 + 0, 0]
    ∧ (activate c1room).players.map Player.shockedCount = [0 + 1, 0] := by
  decide

/-- C1 amended: on every application with a non-null seated chair, a shocked
outcome resets the attacker's point to 0 and increments the attacker's
`shockedCount` by exactly one, while a safe outcome adds the seat value to
the attacker's point and keeps `shockedCount`; the claimed exclusivity
(point grows by the seat value exactly when `shockedCount` did not grow)
holds provided the attacker's point is non-negative and the seat value is
positive — the data model's ranges — and fails only at `point + seatedChair
= 0` (see the counterexample). -/
theorem c1_attacker_stat_update (room : GameRoom) (i : Nat) (s : Int)
    (h : i < room.players.length) (h' : i < (activate room).players.length)
    (hseat : room.round.seatedChair = some s)
    (hatk : (room.players[i]).id = room.round.attackerId) :
    (room.round.electricChair = some s →
       ((activate room).players[i]).point = 0
       ∧ ((activate room).players[i]).shockedCount = (room.players[i]).shockedCount + 1)
    ∧ (room.round.electricChair ≠ some s →
       ((activate room).players[i]).point = (room.players[i]).point + s
       ∧ ((activate room).players[i]).shockedCount = (room.players[i]).shockedCount)
    ∧ (0 ≤ (room.players[i]).point → 1 ≤ s →
       ((((activate room).players[i]).point = (room.players[i]).point + s
           ∧ ¬ ((activate room).players[i]).shockedCount
               = (room.players[i]).shockedCount + 1)
        ∨ (¬ (((activate room).players[i]).point = (room.players[i]).point + s)
           ∧ ((activate room).players[i]).shockedCount
               = (room.players[i]).shockedCount + 1))) := by
  have hget : (activate room).players[i] = updatePlayer room.round (room.players[i]) := by
    simp [activate_players]
  by_cases hsh : room.round.electricChair = some s
  · have hif : room.round.electricChair = room.round.seatedChair := by
      rw [hseat]
      exact hsh
    refine ⟨fun _ => ?_, fun hn => absurd hsh hn, fun hpt hs1 => ?_⟩
    · rw [hget]
      simp [updatePlayer, hatk, hif]
    · rw [hget]
      simp [updatePlayer, hatk, hif]
      omega
  · have hif : ¬ room.round.electricChair = room.round.seatedChair := by
      rw [hseat]
      exact hsh
    refine ⟨fun he => absurd he hsh, fun _ => ?_, fun hpt hs1 => ?_⟩
    · rw [hget]
      simp [updatePlayer, hatk, hseat, hsh, seatValue]
    · rw [hget]
      simp [updatePlayer, hatk, hseat, hsh, seatValue]

/-- Concrete rooms for the two halves of the C1 witness: a shocked and a
safe application with seat value 4 and attacker point 10. -/
def c1wshock : GameRoom :=
  mkRoom [mkP ("P1") 10 1, mkP ("P2") 4 0] ("P1") Phase.activate
    (some 4) (some 4) [1, 2, 4] none

/-- Witness for C1 at a concrete shocked room. -/
theorem c1_attacker_stat_update_witness :
    c1wshock.round.seatedChair = some 4
    ∧ (c1wshock.players.getD 0 (mkP ("") 0 0)).id = c1wshock.round.attackerId
    ∧ (((activate c1wshock).players.getD 0 (mkP ("") 0 0)).point = 0
       ∧ ((activate c1wshock).players.getD 0 (mkP ("") 0 0)).shockedCount
           = (c1wshock.players.getD 0 (mkP ("") 0 0)).shockedCount + 1) := by
  refine ⟨by decide, by decide, ?_⟩
  have h := (c1_attacker_stat_update c1wshock 0 4 (by decide) (by decide)
    (by decide) (by decide)).1 (by decide)
  exact h

/-- Concrete room for the C4 counterexample and witness: phase still
`select`, no seat chosen. -/
def c4room : GameRoom :=
  mkRoom [mkP ("P1") 5 0, mkP ("P2") 7 0] ("P1") Phase.select
    (some 3) none [1, 2, 3] none

/-- Counterexample to C4: invoked on a room whose phase is `select` and
whose `seatedChair` is null, the resolver does not fail — it computes and
persists a full new state (phase `result`, status safe, points and chairs
unchanged), because the source contains no phase or seated-chair validation
and no `InvalidStateError` at all. -/
theorem c4_counterexample :
    c4room.round.phase = Phase.select
    ∧ c4room.round.seatedChair = none
    ∧ (activate c4room).round.phase = Phase.result
    ∧ (activate c4room).round.result.status = some ResultStatus.safe
    ∧ (activate c4room).players.map Player.point = [5, 7]
    ∧ (activate c4room).remainingChairs = [1, 2, 3]
    ∧ (activate c4room).winnerId = none := by
  decide

/-- C4 amended: the resolver never rejects a call: with a null `seatedChair`
it treats the seat value as 0 (`seatedChair || 0`), so with a non-null
electric chair the round counts as safe, every player's point and
shockedCount are carried over, the chair pool is untouched, and the round
still advances to phase `result` — regardless of the round's phase. -/
theorem c4_no_validation (room : GameRoom) (h : room.round.seatedChair = none) :
    (activate room).round.phase = Phase.result
    ∧ (room.round.electricChair ≠ none →
        (activate room).round.result.status = some ResultStatus.safe
        ∧ (activate room).remainingChairs = room.remainingChairs
        ∧ List.Forall₂ (fun p q => q.point = p.point ∧ q.shockedCount = p.shockedCount)
            room.players (activate room).players) := by
  refine ⟨rfl, fun he => ?_⟩
  have hne : room.round.electricChair ≠ room.round.seatedChair := by
    rw [h]
    exact he
  refine ⟨?_, ?_, ?_⟩
  · simp [activate, hne]
  · rw [activate_remainingChairs]
    unfold nextRemainingChairs
    rw [if_neg hne, h]
    simp
  · rw [activate_players, List.forall₂_map_right_iff]
    refine List.forall₂_same.2 (fun p _ => ?_)
    by_cases hid : p.id = room.round.attackerId <;>
      simp [updatePlayer, hid, h, he, seatValue]

/-- Witness for C4 at the concrete `select`-phase room with a null seat. -/
theorem c4_no_validation_witness :
    c4room.round.seatedChair = none
    ∧ c4room.round.electricChair ≠ none
    ∧ (activate c4room).round.phase = Phase.result
    ∧ (activate c4room).round.result.status = some ResultStatus.safe :=
  ⟨by decide, by decide, (c4_no_validation c4room (by decide)).1,
   ((c4_no_validation c4room (by decide)).2 (by decide)).1⟩

/-! Branch lemmas for the winner determination, shared by C2 and C3. -/

/-- Winner branch a: some updated player holds 40 points. -/
lemma nextWinnerId_of_point (room : GameRoom)
    (hA : ∃ p ∈ room.players.map (updatePlayer room.round), 40 ≤ p.point) :
    nextWinnerId room = some room.round.attackerId := by
  simp only [nextWinnerId]
  rw [if_pos hA]

/-- Winner branch b: no 40-point player, some updated player at 3 shocks. -/
lemma nextWinnerId_of_shock (room : GameRoom)
    (hA : ¬ ∃ p ∈ room.players.map (updatePlayer room.round), 40 ≤ p.point)
    (hB : ∃ p ∈ room.players.map (updatePlayer room.round), p.shockedCount = 3) :
    nextWinnerId room
      = (room.players.find? (fun p => decide (p.id ≠ room.round.attackerId))).map Player.id := by
  simp only [nextWinnerId]
  rw [if_neg hA, if_pos hB]

/-- Winner branch c: neither victory, one chair left. -/
lemma nextWinnerId_of_exhaust (room : GameRoom)
    (hA : ¬ ∃ p ∈ room.players.map (updatePlayer room.round), 40 ≤ p.point)
    (hB : ¬ ∃ p ∈ room.players.map (updatePlayer room.round), p.shockedCount = 3)
    (hL : (nextRemainingChairs room).length = 1) :
    nextWinnerId room = winnerOfReduce (room.players.map (updatePlayer room.round)) := by
  simp only [nextWinnerId]
  rw [if_neg hA, if_neg hB, if_pos hL]

/-- Winner branch d: no condition fires, the winner stays null. -/
lemma nextWinnerId_of_none (room : GameRoom)
    (hA : ¬ ∃ p ∈ room.players.map (updatePlayer room.round), 40 ≤ p.point)
    (hB : ¬ ∃ p ∈ room.players.map (updatePlayer room.round), p.shockedCount = 3)
    (hL : (nextRemainingChairs room).length ≠ 1) :
    nextWinnerId room = none := by
  simp only [nextWinnerId]
  rw [if_neg hA, if_neg hB, if_neg hL]

/-- In a two-player room the updated players determine both updates. -/
lemma updated_pair (room : GameRoom) (p1 p2 q1 q2 : Player)
    (hps : room.players = [p1, p2])
    (hupd : (activate room).players = [q1, q2]) :
    updatePlayer room.round p1 = q1 ∧ updatePlayer room.round p2 = q2 := by
  have hmap : room.players.map (updatePlayer room.round) = [q1, q2] := by
    rw [← activate_players, hupd]
  rw [hps] at hmap
  simpa using hmap

/-- The reduce over two players: strictly higher point wins, a tie is the
draw sentinel. -/
lemma winnerOfReduce_pair (q1 q2 : Player) :
    winnerOfReduce [q1, q2]
      = some (if q1.point < q2.point then q2.id
              else if q2.point = q1.point then "draw" else q1.id) := by
  simp only [winnerOfReduce, List.foldl_cons, List.foldl_nil, reduceStep]
  by_cases hgt : q1.point < q2.point
  · rw [if_pos hgt, if_pos hgt]
  · rw [if_neg hgt, if_neg hgt]
    by_cases heq : q2.point = q1.point
    · rw [if_pos heq, if_pos heq]
    · rw [if_neg heq, if_neg heq]

/-- Concrete room for the C3 counterexample: Scenario C of the spec —
`remainingChairs = [4]` before activation, a safe outcome removes chair 4,
both players end at 20 points. -/
def c3room : GameRoom :=
  mkRoom [mkP ("P1") 16 0, mkP ("P2") 20 0] ("P1") Phase.activate
    (some 9) (some 4) [4] none

/-- Counterexample to C3: in the spec's Scenario C the chair pool becomes
empty, but the code's exhaustion branch tests the NEW pool's length against
1, so at length 0 it does not fire: `winnerId` is null, not the "draw"
sentinel. -/
theorem c3_counterexample :
    c3room.remainingChairs = [4]
    ∧ (activate c3room).remainingChairs = []
    ∧ (activate c3room).players.map Player.point = [20, 20]
    ∧ (activate c3room).winnerId = none := by
  decide

/-- C3 amended: the exhaustion rule applies when the UPDATED chair pool has
exactly one element (not zero): absent a score or elimination victory, the
strictly higher scorer wins and an exact tie yields the reserved "draw"
sentinel. A safe activation from a one-chair pool instead empties the pool
and leaves `winnerId` null (see the counterexample). -/
theorem c3_chair_exhaustion (room : GameRoom) (p1 p2 q1 q2 : Player)
    (hps : room.players = [p1, p2])
    (hupd : (activate room).players = [q1, q2])
    (h1 : q1.point < 40) (h2 : q2.point < 40)
    (h3 : q1.shockedCount ≠ 3) (h4 : q2.shockedCount ≠ 3)
    (hL : (activate room).remainingChairs.length = 1) :
    (q2.point < q1.point → (activate room).winnerId = some q1.id)
    ∧ (q1.point < q2.point → (activate room).winnerId = some q2.id)
    ∧ (q1.point = q2.point → (activate room).winnerId = some ("draw")) := by
  obtain ⟨hq1, hq2⟩ := updated_pair room p1 p2 q1 q2 hps hupd
  have hmap : room.players.map (updatePlayer room.round) = [q1, q2] := by
    rw [hps]
    simp [hq1, hq2]
  have hA : ¬ ∃ p ∈ room.players.map (updatePlayer room.round), 40 ≤ p.point := by
    rw [hmap]
    simp
    omega
  have hB : ¬ ∃ p ∈ room.players.map (updatePlayer room.round), p.shockedCount = 3 := by
    rw [hmap]
    simp
    omega
  have hL' : (nextRemainingChairs room).length = 1 := by
    rw [← activate_remainingChairs]
    exact hL
  have hw : (activate room).winnerId = winnerOfReduce [q1, q2] := by
    rw [activate_winnerId, nextWinnerId_of_exhaust room hA hB hL', hmap]
  rw [winnerOfReduce_pair] at hw
  refine ⟨fun h => ?_, fun h => ?_, fun h => ?_⟩
  · rw [hw, if_neg (by omega), if_neg (by omega)]
  · rw [hw, if_pos h]
  · rw [hw, if_neg (by omega), if_pos h.symm]

/-- Concrete room for the C3 witness: pool `[4, 7]`, safe removal of chair 4
leaves exactly one chair, both players at 20 points. -/
def c3wroom : GameRoom :=
  mkRoom [mkP ("P1") 16 0, mkP ("P2") 20 0] ("P1") Phase.activate
    (some 9) (some 4) [4, 7] none

/-- Witness for C3 at a concrete tie ending on one remaining chair. -/
theorem c3_chair_exhaustion_witness :
    (activate c3wroom).remainingChairs.length = 1
    ∧ (activate c3wroom).winnerId = some ("draw") :=
  ⟨by decide,
   (c3_chair_exhaustion c3wroom (mkP ("P1") 16 0) (mkP ("P2") 20 0)
      (mkP ("P1") 20 0) (mkP ("P2") 20 0) (by decide) (by decide) (by decide)
      (by decide) (by decide) (by decide) (by decide)).2.2 (by decide)⟩

/-- Concrete room for the C2 counterexample: the non-attacker already holds
45 points while the attacker scores 1 safe point. -/
def c2room : GameRoom :=
  mkRoom [mkP ("P1") 0 0, mkP ("P2") 45 0] ("P1") Phase.activate
    (some 5) (some 1) [1, 2, 3] none

/-- Counterexample to C2: the 40-point branch always writes
`round.attackerId`, not the id of the player holding 40 points: here "P2"
holds 45 points after the update, yet `winnerId` is set to "P1". -/
theorem c2_counterexample :
    (activate c2room).players.map Player.point = [1, 45]
    ∧ c2room.round.attackerId = "P1"
    ∧ (activate c2room).winnerId = some ("P1")
    ∧ (∀ p ∈ (activate c2room).players, 40 ≤ p.point → p.id = "P2") := by
  decide

/-- C2 amended: the priority order is as claimed provided the pre-state is a
live two-player game (distinct ids, both points below 40, both shock counts
below 3) — then only the attacker's stats can move, so the 40-point winner
is the 40-point player and the elimination winner is the non-shocked player:
(a) some updated player at 40 points makes that player the winner; (b)
otherwise a player at 3 shocks makes the other player the winner; (c)
otherwise with the updated pool not at one chair the winner stays null; (d)
otherwise the exhaustion comparison applies. On degenerate pre-states the
code instead writes `round.attackerId` in branch (a) and the first
non-attacker id in branch (b) (see the counterexample). -/
theorem c2_winner_priority (room : GameRoom) (p1 p2 q1 q2 : Player)
    (hps : room.players = [p1, p2])
    (hupd : (activate room).players = [q1, q2])
    (hid : p1.id ≠ p2.id)
    (hpt1 : p1.point < 40) (hpt2 : p2.point < 40)
    (hsc1 : p1.shockedCount < 3) (hsc2 : p2.shockedCount < 3) :
    (40 ≤ q1.point ∨ 40 ≤ q2.point →
       (40 ≤ q1.point ∧ (activate room).winnerId = some q1.id)
       ∨ (40 ≤ q2.point ∧ (activate room).winnerId = some q2.id))
    ∧ (q1.point < 40 → q2.point < 40 →
       q1.shockedCount = 3 ∨ q2.shockedCount = 3 →
       (q1.shockedCount = 3 ∧ q2.shockedCount ≠ 3
          ∧ (activate room).winnerId = some q2.id)
       ∨ (q2.shockedCount = 3 ∧ q1.shockedCount ≠ 3
          ∧ (activate room).winnerId = some q1.id))
    ∧ (q1.point < 40 → q2.point < 40 →
       q1.shockedCount ≠ 3 → q2.shockedCount ≠ 3 →
       (activate room).remainingChairs.length ≠ 1 →
       (activate room).winnerId = none)
    ∧ (q1.point < 40 → q2.point < 40 →
       q1.shockedCount ≠ 3 → q2.shockedCount ≠ 3 →
       (activate room).remainingChairs.length = 1 →
       (q2.point < q1.point → (activate room).winnerId = some q1.id)
       ∧ (q1.point < q2.point → (activate room).winnerId = some q2.id)
       ∧ (q1.point = q2.point → (activate room).winnerId = some ("draw"))) := by
  obtain ⟨hq1, hq2⟩ := updated_pair room p1 p2 q1 q2 hps hupd
  have hmap : room.players.map (updatePlayer room.round) = [q1, q2] := by
    rw [hps]
    simp [hq1, hq2]
  have hid1 : q1.id = p1.id := by
    rw [← hq1]
    exact updatePlayer_id room.round p1
  have hid2 : q2.id = p2.id := by
    rw [← hq2]
    exact updatePlayer_id room.round p2
  refine ⟨?_, ?_, ?_, ?_⟩
  · intro hA40
    have hA : ∃ p ∈ room.players.map (updatePlayer room.round), 40 ≤ p.point := by
      rw [hmap]
      simpa using hA40
    have hwin : (activate room).winnerId = some room.round.attackerId := by
      rw [activate_winnerId]
      exact nextWinnerId_of_point room hA
    by_cases hk1 : p1.id = room.round.attackerId
    · have hnp2 : p2.id ≠ room.round.attackerId := by
        rw [← hk1]
        exact Ne.symm hid
      have hq2p2 : q2 = p2 := by
        rw [← hq2]
        exact updatePlayer_not_attacker room.round p2 hnp2
      left
      have h40 : 40 ≤ q1.point := by
        rcases hA40 with h | h
        · exact h
        · rw [hq2p2] at h
          omega
      refine ⟨h40, ?_⟩
      rw [hwin, ← hk1, hid1]
    · by_cases hk2 : p2.id = room.round.attackerId
      · have hnp1 : p1.id ≠ room.round.attackerId := by
          rw [← hk2]
          exact hid
        have hq1p1 : q1 = p1 := by
          rw [← hq1]
          exact updatePlayer_not_attacker room.round p1 hnp1
        right
        have h40 : 40 ≤ q2.point := by
          rcases hA40 with h | h
          · rw [hq1p1] at h
            omega
          · exact h
        refine ⟨h40, ?_⟩
        rw [hwin, ← hk2, hid2]
      · exfalso
        have hq1p1 : q1 = p1 := by
          rw [← hq1]
          exact updatePlayer_not_attacker room.round p1 hk1
        have hq2p2 : q2 = p2 := by
          rw [← hq2]
          exact updatePlayer_not_attacker room.round p2 hk2
        rcases hA40 with h | h
        · rw [hq1p1] at h
          omega
        · rw [hq2p2] at h
          omega
  · intro hl1 hl2 hBor
    have hA : ¬ ∃ p ∈ room.players.map (updatePlayer room.round), 40 ≤ p.point := by
      rw [hmap]
      simp
      omega
    have hB : ∃ p ∈ room.players.map (updatePlayer room.round), p.shockedCount = 3 := by
      rw [hmap]
      simpa using hBor
    have hwin : (activate room).winnerId
        = (room.players.find? (fun p => decide (p.id ≠ room.round.attackerId))).map Player.id := by
      rw [activate_winnerId]
      exact nextWinnerId_of_shock room hA hB
    rw [hps] at hwin
    by_cases hk1 : p1.id = room.round.attackerId
    · have hnp2 : p2.id ≠ room.round.attackerId := by
        rw [← hk1]
        exact Ne.symm hid
      have hq2p2 : q2 = p2 := by
        rw [← hq2]
        exact updatePlayer_not_attacker room.round p2 hnp2
      have hfind :
          List.find? (fun p => decide (p.id ≠ room.round.attackerId)) [p1, p2] = some p2 := by
        simp [List.find?, hk1, hnp2]
      rw [hfind] at hwin
      left
      have hq13 : q1.shockedCount = 3 := by
        rcases hBor with h | h
        · exact h
        · rw [hq2p2] at h
          omega
      refine ⟨hq13, by rw [hq2p2]; omega, ?_⟩
      rw [hwin, hid2]
      rfl
    · by_cases hk2 : p2.id = room.round.attackerId
      · have hnp1 : p1.id ≠ room.round.attackerId := by
          rw [← hk2]
          exact hid
        have hq1p1 : q1 = p1 := by
          rw [← hq1]
          exact updatePlayer_not_attacker room.round p1 hnp1
        have hfind :
            List.find? (fun p => decide (p.id ≠ room.round.attackerId)) [p1, p2] = some p1 := by
          simp [List.find?, hnp1]
        rw [hfind] at hwin
        right
        have hq23 : q2.shockedCount = 3 := by
          rcases hBor with h | h
          · rw [hq1p1] at h
            omega
          · exact h
        refine ⟨hq23, by rw [hq1p1]; omega, ?_⟩
        rw [hwin, hid1]
        rfl
      · exfalso
        have hq1p1 : q1 = p1 := by
          rw [← hq1]
          exact updatePlayer_not_attacker room.round p1 hk1
        have hq2p2 : q2 = p2 := by
          rw [← hq2]
          exact updatePlayer_not_attacker room.round p2 hk2
        rcases hBor with h | h
        · rw [hq1p1] at h
          omega
        · rw [hq2p2] at h
          omega
  · intro hl1 hl2 hn1 hn2 hL
    have hA : ¬ ∃ p ∈ room.players.map (updatePlayer room.round), 40 ≤ p.point := by
      rw [hmap]
      simp
      omega
    have hB : ¬ ∃ p ∈ room.players.map (updatePlayer room.round), p.shockedCount = 3 := by
      rw [hmap]
      simp
      omega
    have hL' : (nextRemainingChairs room).length ≠ 1 := by
      rw [← activate_remainingChairs]
      exact hL
    rw [activate_winnerId]
    exact nextWinnerId_of_none room hA hB hL'
  · intro hl1 hl2 hn1 hn2 hL
    have hA : ¬ ∃ p ∈ room.players.map (updatePlayer room.round), 40 ≤ p.point := by
      rw [hmap]
      simp
      omega
    have hB : ¬ ∃ p ∈ room.players.map (updatePlayer room.round), p.shockedCount = 3 := by
      rw [hmap]
      simp
      omega
    have hL' : (nextRemainingChairs room).length = 1 := by
      rw [← activate_remainingChairs]
      exact hL
    have hw : (activate room).winnerId = winnerOfReduce [q1, q2] := by
      rw [activate_winnerId, nextWinnerId_of_exhaust room hA hB hL', hmap]
    rw [winnerOfReduce_pair] at hw
    refine ⟨fun h => ?_, fun h => ?_, fun h => ?_⟩
    · rw [hw, if_neg (by omega), if_neg (by omega)]
    · rw [hw, if_pos h]
    · rw [hw, if_neg (by omega), if_pos h.symm]

/-- Concrete room for the C2 witness: the attacker at 38 points scores a
safe seat worth 2 and reaches exactly 40. -/
def c2wroom : GameRoom :=
  mkRoom [mkP ("P1") 38 0, mkP ("P2") 11 1] ("P1") Phase.activate
    (some 5) (some 2) [1, 2, 3, 4] none

/-- Witness for C2 at a concrete score victory (Scenario A of the spec). -/
theorem c2_winner_priority_witness :
    (40 ≤ (mkP ("P1") 40 0).point
       ∧ (activate c2wroom).winnerId = some (mkP ("P1") 40 0).id)
    ∨ (40 ≤ (mkP ("P2") 11 1).point
       ∧ (activate c2wroom).winnerId = some (mkP ("P2") 11 1).id) :=
  (c2_winner_priority c2wroom (mkP ("P1") 38 0) (mkP ("P2") 11 1)
      (mkP ("P1") 40 0) (mkP ("P2") 11 1) (by decide) (by decide) (by decide)
      (by decide) (by decide) (by decide) (by decide)).1 (by decide)

end EChair
